import Mathlib

/-!
Shallow embedding of the CMS repository's Identity & Access + Record
Provisioning layer.

Source files embedded:
 - `src/unnamed/part_003` (first segment): the `Database` class over sqlite —
   `Employee`/`Customer` records, CRUD operations, and the count-based code
   generators `generateUniqueEmployeeCode` / `generateUniqueCustomerCode`.
 - `src/unnamed/part_003` (second segment, `lib/auth`): `authenticateUser`,
   `verifyToken`, `hashPassword`.
 - `src/app/api/employees/route.ts`: the four staff HTTP handlers
   (`GET`/`POST`/`PUT`/`DELETE`), modelled here as `employeesGET` etc.
 - `src/unnamed/part_002` (`app/api/customers/route.ts`): the four customer
   HTTP handlers, modelled here as `customersGET` etc.

Modelling conventions:
 - The sqlite store is a `DB` value: two lists of rows plus the AUTOINCREMENT
   counters.  `COUNT(*)` is list length; `WHERE id = ?` lookups are `find?`
   on the row id; `ORDER BY id DESC` is `reverse` of insertion order (rows are
   appended with strictly increasing ids).  The `UNIQUE` column constraints of
   the two `CREATE TABLE` statements are checked at insert, and on the `email`
   column at update.  The `createdAt DATETIME` column (a timestamp default,
   never read by any handler) is omitted.
 - bcrypt is symbolic one-way hashing: `hashPassword p` is the constructor
   `PasswordHash.hashed p`, and `bcryptCompare p h` holds exactly when `h` is
   the hash of `p` (perfect-cryptography assumption).
 - JWTs are symbolic: a `Token` records the signed payload, the issued-at
   time and the secret used to sign; `jwtVerify` succeeds exactly on a
   matching secret and an unexpired issued-at (perfect-MAC assumption).
   `expiresIn: '24h'` is 86400 seconds.
 - JavaScript truthiness on the relevant values: a number is falsy iff 0
   (`truthy` on `Option Nat`: absent/null/0 are falsy), a string is falsy iff
   empty (`falsyStr` on `Option String`: absent or `""`).
 - `authenticateRequest` (cookie parsing + `verifyToken`) resolves the
   caller's identity; handlers take its result as an explicit
   `Option AuthUser` parameter.
-/

/-- The `role` column: source type `'admin' | 'user'`. -/
inductive Role where
  | admin
  | user
deriving DecidableEq, Repr

/-- A stored bcrypt hash.  One-way: only `bcryptCompare` can inspect it. -/
inductive PasswordHash where
  | hashed (plain : String)
deriving DecidableEq, Repr

/-- `hashPassword` from `lib/auth` (bcrypt.hash with 10 salt rounds),
modelled symbolically. -/
def hashPassword (password : String) : PasswordHash :=
  PasswordHash.hashed password

/-- `bcrypt.compare(password, hash)`: true exactly when `hash` was produced
from `password`. -/
def bcryptCompare (password : String) (h : PasswordHash) : Bool :=
  h == hashPassword password

/-- JavaScript truthiness of `number | null | undefined`: falsy iff absent or 0. -/
def truthy : Option Nat → Bool
  | none => false
  | some n => n != 0

/-- JavaScript falsiness of `string | undefined`: `!s` is true iff `s` is
absent or the empty string. -/
def falsyStr : Option String → Bool
  | none => true
  | some s => s == ""

/-- `count.toString().padStart(3, '0')`. -/
def padStart3 (n : Nat) : String :=
  let s := toString n
  if s.length < 3 then String.mk (List.replicate (3 - s.length) '0') ++ s else s

/-- A row of the `employees` table (interface `Employee` in `lib/database`);
the `createdAt` timestamp column is omitted. -/
structure Employee where
  id : Nat
  employeeCode : String
  firstname : String
  lastname : String
  mobile : String
  dateOfBirth : String
  email : String
  password : PasswordHash
  role : Role
deriving DecidableEq, Repr

/-- A row of the `customers` table (interface `Customer` in `lib/database`);
`createdBy` is the nullable owner reference. -/
structure Customer where
  id : Nat
  customerCode : String
  firstname : String
  lastname : String
  mobile : String
  dateOfBirth : String
  email : String
  createdBy : Option Nat
deriving DecidableEq, Repr

/-- The sqlite database: the two tables plus their AUTOINCREMENT counters. -/
structure DB where
  employees : List Employee
  customers : List Customer
  nextEmployeeId : Nat
  nextCustomerId : Nat
deriving DecidableEq, Repr

/-- An employee row as returned by queries that strip the `password` column
(`getAllEmployees` selects every column but `password`; `authenticateUser`
destructures it away). -/
structure EmployeeView where
  id : Nat
  employeeCode : String
  firstname : String
  lastname : String
  mobile : String
  dateOfBirth : String
  email : String
  role : Role
deriving DecidableEq, Repr

/-- Drop the `password` column from an employee row. -/
def employeeView (e : Employee) : EmployeeView :=
  { id := e.id, employeeCode := e.employeeCode, firstname := e.firstname,
    lastname := e.lastname, mobile := e.mobile, dateOfBirth := e.dateOfBirth,
    email := e.email, role := e.role }

/-- The customer object shape returned by the customer POST/PUT handlers
(every field except `createdBy`). -/
structure CustomerView where
  id : Nat
  customerCode : String
  firstname : String
  lastname : String
  mobile : String
  dateOfBirth : String
  email : String
deriving DecidableEq, Repr

/-- Project a customer row to the POST/PUT response shape. -/
def customerView (c : Customer) : CustomerView :=
  { id := c.id, customerCode := c.customerCode, firstname := c.firstname,
    lastname := c.lastname, mobile := c.mobile, dateOfBirth := c.dateOfBirth,
    email := c.email }

/-- `generateUniqueEmployeeCode`: `SELECT COUNT(*) FROM employees`, then
format `EMP` + zero-padded (count+1). -/
def generateUniqueEmployeeCode (db : DB) : String :=
  "EMP" ++ padStart3 (db.employees.length + 1)

/-- `generateUniqueCustomerCode`: `SELECT COUNT(*) FROM customers`, then
format `CUST` + zero-padded (count+1). -/
def generateUniqueCustomerCode (db : DB) : String :=
  "CUST" ++ padStart3 (db.customers.length + 1)

/-- Argument record of `createEmployee` (`Omit<Employee,'id'|'employeeCode'>`):
plaintext password, role possibly absent (`employee.role || 'user'`). -/
structure NewEmployee where
  firstname : String
  lastname : String
  mobile : String
  dateOfBirth : String
  email : String
  password : String
  role : Option Role
deriving DecidableEq, Repr

/-- Argument record of `createCustomer` (`Omit<Customer,'id'|'customerCode'>`
without the owner, which is a separate parameter). -/
structure NewCustomer where
  firstname : String
  lastname : String
  mobile : String
  dateOfBirth : String
  email : String
deriving DecidableEq, Repr

/-- `createEmployee`: mint a code with `generateUniqueEmployeeCode`, hash the
password, INSERT.  `none` is the INSERT rejecting on the table's
`UNIQUE(employeeCode)` / `UNIQUE(email)` constraints. -/
def createEmployee (db : DB) (e : NewEmployee) : Option (Employee × DB) :=
  let employeeCode := generateUniqueEmployeeCode db
  let emp : Employee :=
    { id := db.nextEmployeeId, employeeCode := employeeCode,
      firstname := e.firstname, lastname := e.lastname, mobile := e.mobile,
      dateOfBirth := e.dateOfBirth, email := e.email,
      password := hashPassword e.password, role := e.role.getD Role.user }
  if db.employees.any (fun x => x.employeeCode == employeeCode || x.email == e.email)
  then none
  else some (emp, { db with employees := db.employees ++ [emp],
                            nextEmployeeId := db.nextEmployeeId + 1 })

/-- `getEmployeeByCode`: `SELECT * FROM employees WHERE employeeCode = ?`. -/
def getEmployeeByCode (db : DB) (employeeCode : String) : Option Employee :=
  db.employees.find? (fun e => e.employeeCode == employeeCode)

/-- `getEmployeeById`: `SELECT * FROM employees WHERE id = ?`. -/
def getEmployeeById (db : DB) (id : Nat) : Option Employee :=
  db.employees.find? (fun e => e.id == id)

/-- `getAllEmployees`: every column but `password`, `ORDER BY id DESC`. -/
def getAllEmployees (db : DB) : List EmployeeView :=
  (db.employees.map employeeView).reverse

/-- The partial-update record accepted by `updateEmployee`
(`Partial<Omit<Employee,'id'|'employeeCode'|'password'>>`):
`none` is an absent/`undefined` key, left untouched. -/
structure EmployeeUpdates where
  firstname : Option String := none
  lastname : Option String := none
  mobile : Option String := none
  dateOfBirth : Option String := none
  email : Option String := none
  role : Option Role := none
deriving DecidableEq, Repr

/-- `fields.length === 0`: no defined key in the partial update. -/
def EmployeeUpdates.isEmpty (u : EmployeeUpdates) : Bool :=
  u.firstname == none && u.lastname == none && u.mobile == none &&
  u.dateOfBirth == none && u.email == none && u.role == none

/-- Apply the SET clause of `updateEmployee` to one row: each defined field
overwrites, absent fields are untouched; `id`, `employeeCode`, `password`
are not in the accepted key set. -/
def applyEmployeeUpdates (e : Employee) (u : EmployeeUpdates) : Employee :=
  { e with firstname := u.firstname.getD e.firstname,
           lastname := u.lastname.getD e.lastname,
           mobile := u.mobile.getD e.mobile,
           dateOfBirth := u.dateOfBirth.getD e.dateOfBirth,
           email := u.email.getD e.email,
           role := u.role.getD e.role }

/-- Outcome of a db-layer UPDATE/re-query: `ok row` (changes > 0, row
re-fetched), `noRow` (resolve(null): empty field set or no matching id), or
`sqlErr` (the statement rejected, e.g. a UNIQUE violation). -/
inductive UpdateResult (α : Type) where
  | ok (row : α)
  | noRow
  | sqlErr
deriving DecidableEq, Repr

/-- Does setting `email` collide with the `UNIQUE(email)` constraint of the
`employees` table (another row already holds the new value)? -/
def employeeEmailConflict (db : DB) (id : Nat) (u : EmployeeUpdates) : Bool :=
  match u.email with
  | none => false
  | some m => db.employees.any (fun e => e.id != id && e.email == m)

/-- `updateEmployee`: reject an empty field set (resolve(null)); otherwise run
`UPDATE employees SET ... WHERE id = ?` and re-query the row.  `changes = 0`
(no row with this id) also resolves null. -/
def updateEmployee (db : DB) (id : Nat) (u : EmployeeUpdates) :
    UpdateResult Employee × DB :=
  if u.isEmpty then (.noRow, db)
  else if employeeEmailConflict db id u then (.sqlErr, db)
  else
    match db.employees.find? (fun e => e.id == id) with
    | none => (.noRow, db)
    | some _ =>
      let newRows := db.employees.map
        (fun e => if e.id == id then applyEmployeeUpdates e u else e)
      match newRows.find? (fun e => e.id == id) with
      | some row => (.ok row, { db with employees := newRows })
      | none => (.noRow, { db with employees := newRows })

/-- `updateEmployeePassword`: hash and `UPDATE employees SET password = ?
WHERE id = ?`; true iff a row changed. -/
def updateEmployeePassword (db : DB) (id : Nat) (newPassword : String) :
    Bool × DB :=
  let h := hashPassword newPassword
  let newRows := db.employees.map
    (fun e => if e.id == id then { e with password := h } else e)
  (db.employees.any (fun e => e.id == id), { db with employees := newRows })

/-- `deleteEmployee`: `DELETE FROM employees WHERE id = ?`; true iff a row
was removed. -/
def deleteEmployee (db : DB) (id : Nat) : Bool × DB :=
  (db.employees.any (fun e => e.id == id),
   { db with employees := db.employees.filter (fun e => e.id != id) })

/-- `createCustomer`: mint a code with `generateUniqueCustomerCode`, owner is
`createdBy || null` (a falsy creator id collapses to null), INSERT.  `none`
is the INSERT rejecting on `UNIQUE(customerCode)` / `UNIQUE(email)`. -/
def createCustomer (db : DB) (c : NewCustomer) (createdBy : Option Nat) :
    Option (Customer × DB) :=
  let customerCode := generateUniqueCustomerCode db
  let owner := if truthy createdBy then createdBy else none
  let cust : Customer :=
    { id := db.nextCustomerId, customerCode := customerCode,
      firstname := c.firstname, lastname := c.lastname, mobile := c.mobile,
      dateOfBirth := c.dateOfBirth, email := c.email, createdBy := owner }
  if db.customers.any (fun x => x.customerCode == customerCode || x.email == c.email)
  then none
  else some (cust, { db with customers := db.customers ++ [cust],
                             nextCustomerId := db.nextCustomerId + 1 })

/-- `getCustomerById`: `SELECT * FROM customers WHERE id = ?`. -/
def getCustomerById (db : DB) (id : Nat) : Option Customer :=
  db.customers.find? (fun c => c.id == id)

/-- `getAllCustomers(employeeId?)`: `SELECT * FROM customers`, adding
`WHERE createdBy = ?` only when `employeeId` is truthy (`if (employeeId)`),
then `ORDER BY id DESC`. -/
def getAllCustomers (db : DB) (employeeId : Option Nat) : List Customer :=
  if truthy employeeId then
    (db.customers.filter (fun c => c.createdBy == employeeId)).reverse
  else
    db.customers.reverse

/-- The partial-update record accepted by `updateCustomer`
(`Partial<Omit<Customer,'id'|'customerCode'>>`): the owner column is in the
accepted key set (`some v` sets `createdBy` to `v`), though the customer PUT
handler never supplies it. -/
structure CustomerUpdates where
  firstname : Option String := none
  lastname : Option String := none
  mobile : Option String := none
  dateOfBirth : Option String := none
  email : Option String := none
  createdBy : Option (Option Nat) := none
deriving DecidableEq, Repr

/-- `fields.length === 0` for a customer partial update. -/
def CustomerUpdates.isEmpty (u : CustomerUpdates) : Bool :=
  u.firstname == none && u.lastname == none && u.mobile == none &&
  u.dateOfBirth == none && u.email == none && u.createdBy == none

/-- Apply the SET clause of `updateCustomer` to one row. -/
def applyCustomerUpdates (c : Customer) (u : CustomerUpdates) : Customer :=
  { c with firstname := u.firstname.getD c.firstname,
           lastname := u.lastname.getD c.lastname,
           mobile := u.mobile.getD c.mobile,
           dateOfBirth := u.dateOfBirth.getD c.dateOfBirth,
           email := u.email.getD c.email,
           createdBy := u.createdBy.getD c.createdBy }

/-- Does setting `email` collide with `UNIQUE(email)` on `customers`? -/
def customerEmailConflict (db : DB) (id : Nat) (u : CustomerUpdates) : Bool :=
  match u.email with
  | none => false
  | some m => db.customers.any (fun c => c.id != id && c.email == m)

/-- `updateCustomer`: same shape as `updateEmployee` over the `customers`
table. -/
def updateCustomer (db : DB) (id : Nat) (u : CustomerUpdates) :
    UpdateResult Customer × DB :=
  if u.isEmpty then (.noRow, db)
  else if customerEmailConflict db id u then (.sqlErr, db)
  else
    match db.customers.find? (fun c => c.id == id) with
    | none => (.noRow, db)
    | some _ =>
      let newRows := db.customers.map
        (fun c => if c.id == id then applyCustomerUpdates c u else c)
      match newRows.find? (fun c => c.id == id) with
      | some row => (.ok row, { db with customers := newRows })
      | none => (.noRow, { db with customers := newRows })

/-- `deleteCustomer`: `DELETE FROM customers WHERE id = ?`; true iff a row
was removed. -/
def deleteCustomer (db : DB) (id : Nat) : Bool × DB :=
  (db.customers.any (fun c => c.id == id),
   { db with customers := db.customers.filter (fun c => c.id != id) })

/-! ### lib/auth: symbolic JWT and credential verification -/

/-- `process.env.JWT_SECRET || 'your-secret-key-change-in-production'`. -/
def JWT_SECRET : String := "your-secret-key-change-in-production"

/-- `expiresIn: '24h'` in seconds. -/
def tokenValiditySeconds : Nat := 86400

/-- The identity payload placed in the JWT by `authenticateUser` and
recovered by `authenticateRequest`: `{ employeeCode, email, id, role }`. -/
structure AuthUser where
  employeeCode : String
  email : String
  id : Nat
  role : Role
deriving DecidableEq, Repr

/-- A signed JWT, symbolically: the payload, the signing time (`iat`) and the
secret the signature was produced with. -/
structure Token where
  payload : AuthUser
  iat : Nat
  secret : String
deriving DecidableEq, Repr

/-- `jwt.sign(payload, secret, { expiresIn: '24h' })` at time `now`. -/
def jwtSign (payload : AuthUser) (secret : String) (now : Nat) : Token :=
  { payload := payload, iat := now, secret := secret }

/-- `jwt.verify(token, secret)` at time `now`: the payload when the signature
checks out against `secret` and `now < iat + 24h`, otherwise a thrown error
(`none`).  Perfect-MAC assumption: a signature verifies only against the
secret that produced it. -/
def jwtVerify (t : Token) (secret : String) (now : Nat) : Option AuthUser :=
  if t.secret == secret && now < t.iat + tokenValiditySeconds then
    some t.payload
  else
    none

/-- `verifyToken`: `jwt.verify` against the server's `JWT_SECRET`, `null` on
any verification error. -/
def verifyToken (t : Token) (now : Nat) : Option AuthUser :=
  jwtVerify t JWT_SECRET now

/-- `LoginCredentials`. -/
structure LoginCredentials where
  employeeCode : String
  password : String
deriving DecidableEq, Repr

/-- `AuthResponse`: `{success, message, token?, user?}`; the success shape
always carries the token and the password-stripped user. -/
inductive AuthResponse where
  | ok (message : String) (token : Token) (user : EmployeeView)
  | failure (message : String)
deriving DecidableEq, Repr

/-- `authenticateUser`: look up the staff row by code; absent row or failed
bcrypt comparison both return the same generic failure; on success sign a
24h JWT over `{employeeCode, email, id, role}` and strip the password. -/
def authenticateUser (db : DB) (credentials : LoginCredentials) (now : Nat) :
    AuthResponse :=
  match getEmployeeByCode db credentials.employeeCode with
  | none => .failure "Invalid employee code or password"
  | some employee =>
    if bcryptCompare credentials.password employee.password then
      .ok "Login successful"
        (jwtSign
          { employeeCode := employee.employeeCode, email := employee.email,
            id := employee.id, role := employee.role }
          JWT_SECRET now)
        (employeeView employee)
    else
      .failure "Invalid employee code or password"

/-! ### HTTP route handlers

Each handler takes the result of `authenticateRequest` (cookie parsing +
`verifyToken`) as an explicit `Option AuthUser`, the parsed request body /
query parameters, and the database state; it returns the response and the
(possibly unchanged) database. -/

/-- An HTTP response of the API routes, by status and body shape. -/
inductive Res (α : Type) where
  | ok (val : α)
  | unauthorized
  | forbidden
  | badRequest (msg : String)
  | notFound
  | serverError
deriving DecidableEq, Repr

/-- `GET /api/employees`: 401 without an identity, 403 unless the role is
`admin`, otherwise the password-free listing. -/
def employeesGET (auth : Option AuthUser) (db : DB) : Res (List EmployeeView) :=
  match auth with
  | none => .unauthorized
  | some u =>
    if u.role != Role.admin then .forbidden
    else .ok (getAllEmployees db)

/-- Parsed JSON body of `POST /api/employees`. -/
structure EmployeePostBody where
  firstname : Option String := none
  lastname : Option String := none
  mobile : Option String := none
  dateOfBirth : Option String := none
  email : Option String := none
  password : Option String := none
  role : Option Role := none
deriving DecidableEq, Repr

/-- The employee POST validation guard
`!firstname || !lastname || !mobile || !dateOfBirth || !email || !password`. -/
def employeeRequiredMissing (b : EmployeePostBody) : Bool :=
  falsyStr b.firstname || falsyStr b.lastname || falsyStr b.mobile ||
  falsyStr b.dateOfBirth || falsyStr b.email || falsyStr b.password

/-- `POST /api/employees`: 401 / 403 gating, required-field and password
length validation, then `createEmployee` (role defaulted with
`role || 'user'`); the 201 body strips the password hash. -/
def employeesPOST (auth : Option AuthUser) (b : EmployeePostBody) (db : DB) :
    Res EmployeeView × DB :=
  match auth with
  | none => (.unauthorized, db)
  | some u =>
    if u.role != Role.admin then (.forbidden, db)
    else if employeeRequiredMissing b then
      (.badRequest "All fields are required", db)
    else if (b.password.getD "").length < 6 then
      (.badRequest "Password must be at least 6 characters", db)
    else
      match createEmployee db
        { firstname := b.firstname.getD "", lastname := b.lastname.getD "",
          mobile := b.mobile.getD "", dateOfBirth := b.dateOfBirth.getD "",
          email := b.email.getD "", password := b.password.getD "",
          role := some (b.role.getD Role.user) } with
      | none => (.serverError, db)
      | some (emp, db2) => (.ok (employeeView emp), db2)

/-- Parsed JSON body of `PUT /api/employees`. -/
structure EmployeePutBody where
  id : Option Nat := none
  firstname : Option String := none
  lastname : Option String := none
  mobile : Option String := none
  dateOfBirth : Option String := none
  email : Option String := none
  role : Option Role := none
deriving DecidableEq, Repr

/-- The partial update the employee PUT handler assembles from its body
(each field added only `if (x !== undefined)`). -/
def EmployeePutBody.updates (b : EmployeePutBody) : EmployeeUpdates :=
  { firstname := b.firstname, lastname := b.lastname, mobile := b.mobile,
    dateOfBirth := b.dateOfBirth, email := b.email, role := b.role }

/-- `PUT /api/employees`: 401 / 403 gating, `!id` check, empty-update check,
then `updateEmployee`; null from the db layer is 404, the 200 body strips
the password hash. -/
def employeesPUT (auth : Option AuthUser) (b : EmployeePutBody) (db : DB) :
    Res EmployeeView × DB :=
  match auth with
  | none => (.unauthorized, db)
  | some u =>
    if u.role != Role.admin then (.forbidden, db)
    else if !truthy b.id then (.badRequest "Employee ID is required", db)
    else if b.updates.isEmpty then (.badRequest "No fields to update", db)
    else
      match updateEmployee db (b.id.getD 0) b.updates with
      | (.noRow, db2) => (.notFound, db2)
      | (.sqlErr, db2) => (.serverError, db2)
      | (.ok emp, db2) => (.ok (employeeView emp), db2)

/-- `DELETE /api/employees?id=...`: 401 / 403 gating, missing-id check, then
`deleteEmployee`; false from the db layer is 404. -/
def employeesDELETE (auth : Option AuthUser) (idParam : Option Nat) (db : DB) :
    Res Unit × DB :=
  match auth with
  | none => (.unauthorized, db)
  | some u =>
    if u.role != Role.admin then (.forbidden, db)
    else
      match idParam with
      | none => (.badRequest "Employee ID is required", db)
      | some id =>
        match deleteEmployee db id with
        | (true, db2) => (.ok (), db2)
        | (false, db2) => (.notFound, db2)

/-- `GET /api/customers`: 401 without an identity; an `admin` caller lists
with no owner filter, any other caller with `employeeId := user.id`. -/
def customersGET (auth : Option AuthUser) (db : DB) : Res (List Customer) :=
  match auth with
  | none => .unauthorized
  | some u =>
    .ok (getAllCustomers db (if u.role == Role.admin then none else some u.id))

/-- Parsed JSON body of `POST /api/customers`. -/
structure CustomerPostBody where
  firstname : Option String := none
  lastname : Option String := none
  mobile : Option String := none
  dateOfBirth : Option String := none
  email : Option String := none
deriving DecidableEq, Repr

/-- The customer POST validation guard
`!firstname || !lastname || !mobile || !dateOfBirth || !email`. -/
def customerRequiredMissing (b : CustomerPostBody) : Bool :=
  falsyStr b.firstname || falsyStr b.lastname || falsyStr b.mobile ||
  falsyStr b.dateOfBirth || falsyStr b.email

/-- `POST /api/customers`: 401 gating (no role check), required-field
validation, then `createCustomer` with `createdBy := user.id`; the 201 body
omits `createdBy`. -/
def customersPOST (auth : Option AuthUser) (b : CustomerPostBody) (db : DB) :
    Res CustomerView × DB :=
  match auth with
  | none => (.unauthorized, db)
  | some u =>
    if customerRequiredMissing b then
      (.badRequest "All fields are required", db)
    else
      match createCustomer db
        { firstname := b.firstname.getD "", lastname := b.lastname.getD "",
          mobile := b.mobile.getD "", dateOfBirth := b.dateOfBirth.getD "",
          email := b.email.getD "" } (some u.id) with
      | none => (.serverError, db)
      | some (cust, db2) => (.ok (customerView cust), db2)

/-- Parsed JSON body of `PUT /api/customers`. -/
structure CustomerPutBody where
  id : Option Nat := none
  firstname : Option String := none
  lastname : Option String := none
  mobile : Option String := none
  dateOfBirth : Option String := none
  email : Option String := none
deriving DecidableEq, Repr

/-- The partial update the customer PUT handler assembles from its body; the
owner column is never among the assembled keys. -/
def CustomerPutBody.updates (b : CustomerPutBody) : CustomerUpdates :=
  { firstname := b.firstname, lastname := b.lastname, mobile := b.mobile,
    dateOfBirth := b.dateOfBirth, email := b.email, createdBy := none }

/-- The ownership check of the customer PUT/DELETE handlers for a non-admin
caller: `!customer || customer.createdBy !== user.id` denies. -/
def ownsCustomer (db : DB) (id : Nat) (userId : Nat) : Bool :=
  match getCustomerById db id with
  | none => false
  | some c => c.createdBy == some userId

/-- `PUT /api/customers`: 401 gating, `!id` check, ownership check for
non-admin callers, empty-update check, then `updateCustomer`; the 200 body
omits `createdBy`. -/
def customersPUT (auth : Option AuthUser) (b : CustomerPutBody) (db : DB) :
    Res CustomerView × DB :=
  match auth with
  | none => (.unauthorized, db)
  | some u =>
    if !truthy b.id then (.badRequest "Customer ID is required", db)
    else if u.role != Role.admin && !ownsCustomer db (b.id.getD 0) u.id then
      (.forbidden, db)
    else if b.updates.isEmpty then (.badRequest "No fields to update", db)
    else
      match updateCustomer db (b.id.getD 0) b.updates with
      | (.noRow, db2) => (.notFound, db2)
      | (.sqlErr, db2) => (.serverError, db2)
      | (.ok cust, db2) => (.ok (customerView cust), db2)

/-- `DELETE /api/customers?id=...`: 401 gating, missing-id check, ownership
check for non-admin callers, then `deleteCustomer`. -/
def customersDELETE (auth : Option AuthUser) (idParam : Option Nat) (db : DB) :
    Res Unit × DB :=
  match auth with
  | none => (.unauthorized, db)
  | some u =>
    match idParam with
    | none => (.badRequest "Customer ID is required", db)
    | some id =>
      if u.role != Role.admin && !ownsCustomer db id u.id then
        (.forbidden, db)
      else
        match deleteCustomer db id with
        | (true, db2) => (.ok (), db2)
        | (false, db2) => (.notFound, db2)

/-! ### Shared helper lemmas -/

/-- `find?` through a pointwise `if p then f else id` map: the first match is
the image of the old first match, provided `f` preserves the predicate on
matching elements. -/
theorem find_map_ite {α : Type} (p : α → Bool) (f : α → α)
    (hp : ∀ a, p a = true → p (f a) = true) :
    ∀ (l : List α) (t : α), l.find? p = some t →
      (l.map fun a => if p a then f a else a).find? p = some (f t) := by
  intro l
  induction l with
  | nil => intro t h; simp at h
  | cons a l ih =>
    intro t h
    cases ha : p a with
    | true =>
      rw [List.find?_cons_of_pos _ ha] at h
      injection h with h
      subst h
      simp only [List.map_cons, if_pos ha]
      exact List.find?_cons_of_pos _ (hp a ha)
    | false =>
      rw [List.find?_cons_of_neg _ (by simp [ha])] at h
      simp only [List.map_cons, if_neg (by simp [ha] : ¬ p a = true)]
      rw [List.find?_cons_of_neg _ (by simp [ha])]
      exact ih t h

/-- A projection unchanged by `f` is unchanged by a pointwise
`if p then f else id` map. -/
theorem map_proj_ite {α β : Type} (proj : α → β) (p : α → Bool) (f : α → α)
    (hp : ∀ a, proj (f a) = proj a) (l : List α) :
    (l.map fun a => if p a then f a else a).map proj = l.map proj := by
  rw [List.map_map]
  apply List.map_congr_left
  intro a _
  by_cases h : p a = true
  · simp [Function.comp, h, hp]
  · simp [Function.comp, h]

/-- If `find?` returns a row then `any` with the same predicate is true. -/
theorem any_of_find (p : α → Bool) (l : List α) (t : α)
    (h : l.find? p = some t) : l.any p = true :=
  List.any_eq_true.mpr ⟨t, List.mem_of_find?_eq_some h, List.find?_some h⟩

/-! ### Concrete data for the closed witness statements: the post-bootstrap
state (the `ADMIN001` row inserted by `initTables`) plus one standard staff
row and two customer rows, one of them owner-less. -/

/-- The bootstrap admin row inserted by `initTables`. -/
def bootAdmin : Employee :=
  { id := 1, employeeCode := "ADMIN001", firstname := "Admin",
    lastname := "User", mobile := "1234567890", dateOfBirth := "1990-01-01",
    email := "admin@cms.com", password := hashPassword "admin123",
    role := Role.admin }

/-- A standard-role staff row. -/
def stdStaff : Employee :=
  { id := 2, employeeCode := "EMP002", firstname := "Stan", lastname := "Dard",
    mobile := "5550001", dateOfBirth := "1995-05-05", email := "stan@cms.com",
    password := hashPassword "stan123", role := Role.user }

/-- A customer row owned by `stdStaff`. -/
def ownedCust : Customer :=
  { id := 1, customerCode := "CUST001", firstname := "Cli", lastname := "Ent",
    mobile := "7770001", dateOfBirth := "1999-09-09", email := "cli@x.com",
    createdBy := some 2 }

/-- A customer row with a null owner reference. -/
def orphanCust : Customer :=
  { id := 2, customerCode := "CUST002", firstname := "Orp", lastname := "Han",
    mobile := "8880001", dateOfBirth := "1998-08-08", email := "orp@x.com",
    createdBy := none }

/-- A concrete database state. -/
def sampleDB : DB :=
  { employees := [bootAdmin, stdStaff], customers := [ownedCust, orphanCust],
    nextEmployeeId := 3, nextCustomerId := 3 }

/-- The admin identity as decoded from a session token. -/
def adminUser : AuthUser :=
  { employeeCode := "ADMIN001", email := "admin@cms.com", id := 1,
    role := Role.admin }

/-- The standard-role identity of `stdStaff`. -/
def stdUser : AuthUser :=
  { employeeCode := "EMP002", email := "stan@cms.com", id := 2,
    role := Role.user }

/-- A second standard-role identity, owner of nothing in `sampleDB`. -/
def otherUser : AuthUser :=
  { employeeCode := "EMP003", email := "oth@cms.com", id := 5,
    role := Role.user }

/-! ### Claim theorems -/

/-- Claim C2: `verifyToken` succeeds — returning the embedded identity —
exactly on tokens signed with the server's `JWT_SECRET` whose issued-at plus
the 24-hour window is still in the future; a token produced by `jwtSign`
under the server secret verifies iff unexpired, and a token signed with any
other secret always yields `none`. -/
theorem verifyToken_iff_server_secret_and_unexpired
    (t : Token) (p : AuthUser) (s : String) (iat now : Nat)
    (hs : s ≠ JWT_SECRET) :
    (verifyToken (jwtSign p JWT_SECRET iat) now
        = if now < iat + tokenValiditySeconds then some p else none)
  ∧ (verifyToken t now = some p ↔
      t = jwtSign p JWT_SECRET t.iat ∧ now < t.iat + tokenValiditySeconds)
  ∧ verifyToken (jwtSign p s iat) now = none := by
  refine ⟨?_, ?_, ?_⟩
  · simp [verifyToken, jwtVerify, jwtSign]
  · cases t with
    | mk payload iat' secret =>
      simp only [verifyToken, jwtVerify, jwtSign]
      constructor
      · intro h
        by_cases hsec : secret = JWT_SECRET
        · by_cases htime : now < iat' + tokenValiditySeconds
          · simp [hsec, htime] at h
            simp [hsec, htime, h]
          · simp [hsec, htime] at h
        · simp [hsec] at h
      · rintro ⟨h1, h2⟩
        injection h1 with hp hi hsec
        simp [hsec, h2, hp]
  · simp [verifyToken, jwtVerify, jwtSign, hs]

/-- Claim C2 witness: the token signed with a non-server secret fails
verification even while fresh. -/
theorem verifyToken_iff_server_secret_and_unexpired_witness :
    verifyToken (jwtSign adminUser "other-secret" 100) 100 = none :=
  (verifyToken_iff_server_secret_and_unexpired
    (jwtSign adminUser JWT_SECRET 0) adminUser "other-secret" 100 100
    (by decide)).2.2

/-- Claim C4: `authenticateUser` returns the identical generic failure for an
unknown employee code and for a known code with a non-matching password, so
the caller cannot distinguish the two cases. -/
theorem authenticateUser_uniform_failure
    (db1 : DB) (c1 : LoginCredentials) (n1 : Nat)
    (db2 : DB) (c2 : LoginCredentials) (n2 : Nat) (e : Employee)
    (h1 : getEmployeeByCode db1 c1.employeeCode = none)
    (h2 : getEmployeeByCode db2 c2.employeeCode = some e)
    (h3 : bcryptCompare c2.password e.password = false) :
    authenticateUser db1 c1 n1 = .failure "Invalid employee code or password"
  ∧ authenticateUser db2 c2 n2 = .failure "Invalid employee code or password"
  ∧ authenticateUser db1 c1 n1 = authenticateUser db2 c2 n2 := by
  refine ⟨?_, ?_, ?_⟩ <;> simp [authenticateUser, h1, h2, h3]

/-- Claim C4 witness: unknown code `NOPE` and wrong password for `ADMIN001`
produce equal responses on the sample state. -/
theorem authenticateUser_uniform_failure_witness :
    authenticateUser sampleDB { employeeCode := "NOPE", password := "x" } 7
      = authenticateUser sampleDB
          { employeeCode := "ADMIN001", password := "wrong" } 9 :=
  (authenticateUser_uniform_failure
    sampleDB { employeeCode := "NOPE", password := "x" } 7
    sampleDB { employeeCode := "ADMIN001", password := "wrong" } 9 bootAdmin
    (by decide) (by decide) (by decide)).2.2

/-- Claim C5: every staff route (list, create, update, delete) answers 401
to a request with no verified identity and 403 to any authenticated caller
whose role is not `admin`, leaving the store untouched; consequently a staff
operation proceeds past the gate only for an `admin` caller. -/
theorem staff_routes_require_admin
    (u : AuthUser) (b : EmployeePostBody) (pb : EmployeePutBody)
    (idp : Option Nat) (db : DB) (hu : u.role = Role.user) :
    employeesGET none db = .unauthorized
  ∧ employeesPOST none b db = (.unauthorized, db)
  ∧ employeesPUT none pb db = (.unauthorized, db)
  ∧ employeesDELETE none idp db = (.unauthorized, db)
  ∧ employeesGET (some u) db = .forbidden
  ∧ employeesPOST (some u) b db = (.forbidden, db)
  ∧ employeesPUT (some u) pb db = (.forbidden, db)
  ∧ employeesDELETE (some u) idp db = (.forbidden, db)
  ∧ (∀ a : Option AuthUser,
      employeesGET a db ≠ .unauthorized → employeesGET a db ≠ .forbidden →
        ∃ v, a = some v ∧ v.role = Role.admin) := by
  refine ⟨rfl, rfl, rfl, rfl, ?_, ?_, ?_, ?_, ?_⟩
  · simp [employeesGET, hu]
  · simp [employeesPOST, hu]
  · simp [employeesPUT, hu]
  · simp [employeesDELETE, hu]
  · intro a hna hnf
    match a with
    | none => exact absurd rfl hna
    | some v =>
      cases hv : v.role with
      | admin => exact ⟨v, rfl, hv⟩
      | user => exact absurd (by simp [employeesGET, hv]) hnf

/-- Claim C5 witness: the standard-role caller is refused the staff
listing on the sample state. -/
theorem staff_routes_require_admin_witness :
    employeesGET (some stdUser) sampleDB = .forbidden :=
  (staff_routes_require_admin stdUser {} {} none sampleDB
    (by decide)).2.2.2.2.1

/-- Claim C10: staff and customer creation reject a request in which any
required field is absent or the empty string, with a 400 validation error
and an unchanged store; a body with an empty-string field is handled
identically to the same body with the field absent. -/
theorem creation_rejects_missing_or_empty_required_fields
    (u v : AuthUser) (b : EmployeePostBody) (cb : CustomerPostBody) (db : DB)
    (hadm : u.role = Role.admin)
    (hb : employeeRequiredMissing b = true)
    (hcb : customerRequiredMissing cb = true) :
    employeesPOST (some u) b db = (.badRequest "All fields are required", db)
  ∧ customersPOST (some v) cb db = (.badRequest "All fields are required", db)
  ∧ (∀ b2 : EmployeePostBody,
      employeesPOST (some u) { b2 with firstname := some "" } db
        = employeesPOST (some u) { b2 with firstname := none } db)
  ∧ (∀ cb2 : CustomerPostBody,
      customersPOST (some v) { cb2 with firstname := some "" } db
        = customersPOST (some v) { cb2 with firstname := none } db) := by
  refine ⟨?_, ?_, ?_, ?_⟩
  · simp [employeesPOST, hadm, hb]
  · simp [customersPOST, hcb]
  · intro b2
    simp [employeesPOST, hadm, employeeRequiredMissing, falsyStr]
  · intro cb2
    simp [customersPOST, customerRequiredMissing, falsyStr]

/-- Claim C10 witness: a staff creation whose `firstname` is the empty
string is rejected with the validation error and no new record. -/
theorem creation_rejects_missing_or_empty_required_fields_witness :
    employeesPOST (some adminUser) { firstname := some "" } sampleDB
      = (.badRequest "All fields are required", sampleDB) :=
  (creation_rejects_missing_or_empty_required_fields
    adminUser stdUser { firstname := some "" } {} sampleDB
    (by decide) (by decide) (by decide)).1

/-! ### Claim C1: a purely sequential failing trace for the count-based code
generator.  Starting from the post-bootstrap state (customers table empty),
two creations issue CUST001 and CUST002, the second row is deleted, and the
next creation is issued CUST002 again — a code that had already been issued
— because `generateUniqueCustomerCode` derives the code from `COUNT(*)`. -/

/-- The database state right after `initTables` (bootstrap admin only). -/
def initialDB : DB :=
  { employees := [bootAdmin], customers := [], nextEmployeeId := 2,
    nextCustomerId := 1 }

/-- First customer creation request of the trace. -/
def traceCustA : NewCustomer :=
  { firstname := "Alice", lastname := "A", mobile := "111",
    dateOfBirth := "2000-01-01", email := "a@x.com" }

/-- Second customer creation request of the trace. -/
def traceCustB : NewCustomer :=
  { firstname := "Bob", lastname := "B", mobile := "222",
    dateOfBirth := "2000-01-02", email := "b@x.com" }

/-- Third customer creation request of the trace. -/
def traceCustC : NewCustomer :=
  { firstname := "Carol", lastname := "C", mobile := "333",
    dateOfBirth := "2000-01-03", email := "c@x.com" }

/-- The state after a successful creation, for chaining trace steps. -/
def afterCreate (r : Option (Customer × DB)) (fallback : DB) : DB :=
  (r.map Prod.snd).getD fallback

/-- The code issued by a successful creation. -/
def issuedCode (r : Option (Customer × DB)) : Option String :=
  r.map (fun p => p.1.customerCode)

/-- State after creating Alice. -/
def traceDB1 : DB := afterCreate (createCustomer initialDB traceCustA (some 1)) initialDB

/-- State after creating Bob. -/
def traceDB2 : DB := afterCreate (createCustomer traceDB1 traceCustB (some 1)) traceDB1

/-- State after deleting Bob (row id 2). -/
def traceDB3 : DB := (deleteCustomer traceDB2 2).2

/-- Claim C1 (refuted by the code, upheld as intent): along the sequential
trace create-create-delete-create, the second creation is issued `CUST002`,
the delete succeeds, and the third creation is then issued `CUST002` again —
`generateUniqueCustomerCode` returns a code that was already issued in the
collection (to the deleted row), and the insert even succeeds, so two
historical records share one human code.  No concurrency is needed. -/
theorem customerCode_reissued_after_delete :
    issuedCode (createCustomer initialDB traceCustA (some 1)) = some "CUST001"
  ∧ issuedCode (createCustomer traceDB1 traceCustB (some 1)) = some "CUST002"
  ∧ (deleteCustomer traceDB2 2).1 = true
  ∧ generateUniqueCustomerCode traceDB3 = "CUST002"
  ∧ issuedCode (createCustomer traceDB3 traceCustC (some 1)) = some "CUST002" := by
  refine ⟨rfl, rfl, rfl, rfl, rfl⟩

/-- Claim C6: the customer listing returns every record to an `admin` caller;
a standard-role caller (whose id, a sqlite AUTOINCREMENT surrogate, is
nonzero) receives exactly the records whose `createdBy` equals the caller's
id — none owned by anyone else, and all of the caller's own. -/
theorem customer_listing_scoped_by_role
    (uA u : AuthUser) (db : DB) (x : Customer)
    (hA : uA.role = Role.admin) (hu : u.role = Role.user) (hid : u.id ≠ 0) :
    customersGET (some uA) db = .ok db.customers.reverse
  ∧ (x ∈ db.customers.reverse ↔ x ∈ db.customers)
  ∧ customersGET (some u) db
      = .ok ((db.customers.filter (fun c => c.createdBy == some u.id)).reverse)
  ∧ (x ∈ (db.customers.filter (fun c => c.createdBy == some u.id)).reverse
      ↔ x ∈ db.customers ∧ x.createdBy = some u.id) := by
  refine ⟨?_, List.mem_reverse, ?_, ?_⟩
  · simp [customersGET, getAllCustomers, truthy, hA]
  · simp [customersGET, getAllCustomers, truthy, hu, hid]
  · rw [List.mem_reverse, List.mem_filter]
    simp

/-- Claim C6 witness: the standard caller's listing on the sample state is
exactly its own record. -/
theorem customer_listing_scoped_by_role_witness :
    customersGET (some stdUser) sampleDB
      = .ok ((sampleDB.customers.filter
          (fun c => c.createdBy == some stdUser.id)).reverse) :=
  (customer_listing_scoped_by_role adminUser stdUser sampleDB ownedCust
    (by decide) (by decide) (by decide)).2.2.1

/-- Claim C9: a customer record whose owner reference is null is invisible
and untouchable for every standard-role caller (nonzero id): update and
delete answer 403 with the store unchanged and the record is absent from the
caller's listing; an `admin` caller does see it in the listing. -/
theorem ownerless_customers_hidden_from_standard_callers
    (u uA : AuthUser) (db : DB) (i : Nat) (c : Customer) (b : CustomerPutBody)
    (hu : u.role = Role.user) (hid : u.id ≠ 0) (hA : uA.role = Role.admin)
    (hi : i ≠ 0) (hb : b.id = some i)
    (hfind : db.customers.find? (fun x => x.id == i) = some c)
    (hc : c.createdBy = none) :
    customersPUT (some u) b db = (.forbidden, db)
  ∧ customersDELETE (some u) (some i) db = (.forbidden, db)
  ∧ (∃ l, customersGET (some u) db = .ok l ∧ c ∉ l)
  ∧ (∃ l, customersGET (some uA) db = .ok l ∧ c ∈ l) := by
  have howns : ownsCustomer db i u.id = false := by
    simp [ownsCustomer, getCustomerById, hfind, hc]
  refine ⟨?_, ?_, ?_, ?_⟩
  · simp [customersPUT, hb, truthy, hi, hu, howns]
  · simp [customersDELETE, hu, howns]
  · refine ⟨(db.customers.filter (fun x => x.createdBy == some u.id)).reverse,
      ?_, ?_⟩
    · simp [customersGET, getAllCustomers, truthy, hu, hid]
    · rw [List.mem_reverse, List.mem_filter]
      simp [hc]
  · refine ⟨db.customers.reverse, ?_, ?_⟩
    · simp [customersGET, getAllCustomers, truthy, hA]
    · rw [List.mem_reverse]
      exact List.mem_of_find?_eq_some hfind

/-- Claim C9 witness: the owner-less sample record is 403 for the standard
caller's delete on the sample state. -/
theorem ownerless_customers_hidden_from_standard_callers_witness :
    customersDELETE (some stdUser) (some 2) sampleDB
      = (.forbidden, sampleDB) :=
  (ownerless_customers_hidden_from_standard_callers stdUser adminUser sampleDB
    2 orphanCust { id := some 2 } (by decide) (by decide) (by decide)
    (by decide) rfl (by decide) (by decide)).2.1

/-- Once the ownership check passes, the customer PUT handler can only
answer with validation, not-found, server-error or success — never with the
authorization or authentication denials. -/
theorem customersPUT_not_denied_when_owned
    (u : AuthUser) (b : CustomerPutBody) (db : DB) (i : Nat)
    (hb : b.id = some i) (hi : i ≠ 0)
    (howns : ownsCustomer db i u.id = true) :
    (customersPUT (some u) b db).1 ≠ Res.forbidden
  ∧ (customersPUT (some u) b db).1 ≠ Res.unauthorized := by
  by_cases he : b.updates.isEmpty
  · simp [customersPUT, hb, truthy, hi, howns, he]
  · rcases hup : updateCustomer db i b.updates with ⟨res, db2⟩
    cases res <;> simp [customersPUT, hb, truthy, hi, howns, he, hup]

/-- Claim C3: for a standard-role caller and an existing customer record,
update and delete are refused with 403 and no state change exactly when the
record's owner reference differs from the caller's id; when the owner equals
the caller's id the authorization gate passes (the update is never answered
403/401, and the delete goes through and removes the row). -/
theorem customer_write_ownership_gate
    (u : AuthUser) (db : DB) (i : Nat) (c : Customer) (b : CustomerPutBody)
    (hu : u.role = Role.user) (hi : i ≠ 0) (hb : b.id = some i)
    (hfind : db.customers.find? (fun x => x.id == i) = some c) :
    (c.createdBy ≠ some u.id →
        customersPUT (some u) b db = (.forbidden, db)
      ∧ customersDELETE (some u) (some i) db = (.forbidden, db))
  ∧ (c.createdBy = some u.id →
        (customersPUT (some u) b db).1 ≠ Res.forbidden
      ∧ (customersPUT (some u) b db).1 ≠ Res.unauthorized
      ∧ customersDELETE (some u) (some i) db
          = (.ok (), { db with customers :=
              db.customers.filter (fun x => x.id != i) })) := by
  constructor
  · intro hne
    have howns : ownsCustomer db i u.id = false := by
      simp [ownsCustomer, getCustomerById, hfind, hne]
    constructor
    · simp [customersPUT, hb, truthy, hi, hu, howns]
    · simp [customersDELETE, hu, howns]
  · intro heq
    have howns : ownsCustomer db i u.id = true := by
      simp [ownsCustomer, getCustomerById, hfind, heq]
    have hden := customersPUT_not_denied_when_owned u b db i hb hi howns
    refine ⟨hden.1, hden.2, ?_⟩
    have hany : db.customers.any (fun x => x.id == i) = true :=
      any_of_find _ _ _ hfind
    simp [customersDELETE, howns, deleteCustomer, hany]

/-- Claim C3 witness: a standard caller deleting a record owned by someone
else is refused on the sample state. -/
theorem customer_write_ownership_gate_witness :
    customersDELETE (some otherUser) (some 1) sampleDB
      = (.forbidden, sampleDB) :=
  ((customer_write_ownership_gate otherUser sampleDB 1 ownedCust
      { id := some 1 } (by decide) (by decide) rfl (by decide)).1
    (by decide)).2

/-- A db-layer customer update whose partial field set does not contain the
owner column preserves each row's `(id, createdBy)` projection. -/
theorem updateCustomer_preserves_owner (d : DB) (i : Nat) (u : CustomerUpdates)
    (hu : u.createdBy = none) :
    ((updateCustomer d i u).2).customers.map (fun x => (x.id, x.createdBy))
      = d.customers.map (fun x => (x.id, x.createdBy)) := by
  have hproj : ∀ c : Customer,
      (fun x : Customer => (x.id, x.createdBy)) (applyCustomerUpdates c u)
        = (c.id, c.createdBy) := by
    intro c
    simp [applyCustomerUpdates, hu]
  simp only [updateCustomer]
  split
  · rfl
  split
  · rfl
  split
  · rfl
  · split
    · exact map_proj_ite _ _ _ hproj d.customers
    · exact map_proj_ite _ _ _ hproj d.customers

/-- The customer PUT handler never changes any record's owner reference (it
whitelists the five personal fields, so the partial update it passes down
has no owner entry), whatever the caller and body. -/
theorem customersPUT_preserves_owner
    (a : Option AuthUser) (pb : CustomerPutBody) (d : DB) :
    ((customersPUT a pb d).2).customers.map (fun x => (x.id, x.createdBy))
      = d.customers.map (fun x => (x.id, x.createdBy)) := by
  cases a with
  | none => rfl
  | some u =>
    simp only [customersPUT]
    split
    · rfl
    split
    · rfl
    split
    · rfl
    · have hpres := updateCustomer_preserves_owner d (pb.id.getD 0) pb.updates rfl
      rcases hup : updateCustomer d (pb.id.getD 0) pb.updates with ⟨res, db2⟩
      rw [hup] at hpres
      cases res <;> simp [hup] <;> exact hpres

/-- Claim C7: a successful customer creation stores the authenticated
caller's id (a nonzero surrogate key) as the new record's owner reference,
and no customer update request ever changes any record's owner reference. -/
theorem customer_owner_set_at_creation_and_immutable
    (u : AuthUser) (b : CustomerPostBody) (db db2 : DB) (c : Customer)
    (hid : u.id ≠ 0)
    (hv : customerRequiredMissing b = false)
    (hc : createCustomer db
        { firstname := b.firstname.getD "", lastname := b.lastname.getD "",
          mobile := b.mobile.getD "", dateOfBirth := b.dateOfBirth.getD "",
          email := b.email.getD "" } (some u.id) = some (c, db2)) :
    c.createdBy = some u.id
  ∧ customersPOST (some u) b db = (.ok (customerView c), db2)
  ∧ db2.customers = db.customers ++ [c]
  ∧ ∀ (a : Option AuthUser) (pb : CustomerPutBody) (d : DB),
      ((customersPUT a pb d).2).customers.map (fun x => (x.id, x.createdBy))
        = d.customers.map (fun x => (x.id, x.createdBy)) := by
  have hpost : customersPOST (some u) b db = (.ok (customerView c), db2) := by
    simp [customersPOST, hv, hc]
  simp only [createCustomer] at hc
  split at hc
  · exact absurd hc (by simp)
  · injection hc with hc
    injection hc with hcust hdb
    subst hcust hdb
    refine ⟨by simp [truthy, hid], hpost, rfl, customersPUT_preserves_owner⟩

/-- Claim C7 witness data: the creation request issued on the sample state. -/
def newCustBody : CustomerPostBody :=
  { firstname := some "New", lastname := some "Cust", mobile := some "999",
    dateOfBirth := some "2001-01-01", email := some "new@x.com" }

/-- Claim C7 witness data: the row that creation persists. -/
def newCustRow : Customer :=
  { id := 3, customerCode := "CUST003", firstname := "New", lastname := "Cust",
    mobile := "999", dateOfBirth := "2001-01-01", email := "new@x.com",
    createdBy := some 2 }

/-- Claim C7 witness data: the sample state after the creation. -/
def sampleDBafterCreate : DB :=
  { employees := [bootAdmin, stdStaff],
    customers := [ownedCust, orphanCust, newCustRow],
    nextEmployeeId := 3, nextCustomerId := 4 }

/-- Claim C7 witness: on the sample state, the standard caller's creation
stores that caller's id as the owner. -/
theorem customer_owner_set_at_creation_and_immutable_witness :
    newCustRow.createdBy = some stdUser.id :=
  (customer_owner_set_at_creation_and_immutable stdUser newCustBody sampleDB
    sampleDBafterCreate newCustRow (by decide) (by decide) (by decide)).1

/-- Claim C8: a staff or customer update with an empty partial field set is
answered with the 400 caller error and no state change; an update supplying
only a new email for an existing id (fresh with respect to the `UNIQUE`
email constraint) succeeds and rewrites exactly that record's email — its
id, code, role and every other field, and every other record, are
untouched. -/
theorem update_empty_rejected_and_email_only_frame
    (u : AuthUser) (db : DB) (i j : Nat) (t : Employee) (c : Customer)
    (m m2 : String)
    (hadm : u.role = Role.admin) (hi : i ≠ 0) (hj : j ≠ 0)
    (hft : db.employees.find? (fun e => e.id == i) = some t)
    (hce : employeeEmailConflict db i { email := some m } = false)
    (hfc : db.customers.find? (fun x => x.id == j) = some c)
    (hcc : customerEmailConflict db j { email := some m2 } = false) :
    employeesPUT (some u) { id := some i } db
        = (.badRequest "No fields to update", db)
  ∧ employeesPUT (some u) { id := some i, email := some m } db
        = (.ok (employeeView { t with email := m }),
           { db with employees := (db.employees.map
               (fun e => if e.id == i then { e with email := m } else e)) })
  ∧ customersPUT (some u) { id := some j } db
        = (.badRequest "No fields to update", db)
  ∧ customersPUT (some u) { id := some j, email := some m2 } db
        = (.ok (customerView { c with email := m2 }),
           { db with customers := (db.customers.map
               (fun x => if x.id == j then { x with email := m2 } else x)) }) := by
  have hfind2 : (db.employees.map (fun e =>
        if e.id == i then applyEmployeeUpdates e { email := some m } else e)).find?
          (fun e => e.id == i)
      = some (applyEmployeeUpdates t { email := some m }) :=
    find_map_ite (fun e => e.id == i)
      (fun e => applyEmployeeUpdates e { email := some m })
      (fun a ha => ha) db.employees t hft
  have hupd : updateEmployee db i { email := some m }
      = (.ok (applyEmployeeUpdates t { email := some m }),
         { db with employees := (db.employees.map (fun e =>
             if e.id == i then applyEmployeeUpdates e { email := some m } else e)) }) := by
    simp only [updateEmployee]
    split
    · next h => simp [EmployeeUpdates.isEmpty] at h
    split
    · next h => rw [hce] at h; cases h
    split
    · next h => rw [hft] at h; cases h
    · next h =>
      split
      · next row hrow =>
        rw [hfind2] at hrow
        injection hrow with hrow
        rw [hrow]
      · next hrow => rw [hfind2] at hrow; cases hrow
  have hfind2c : (db.customers.map (fun x =>
        if x.id == j then applyCustomerUpdates x { email := some m2 } else x)).find?
          (fun x => x.id == j)
      = some (applyCustomerUpdates c { email := some m2 }) :=
    find_map_ite (fun x : Customer => x.id == j)
      (fun x => applyCustomerUpdates x { email := some m2 })
      (fun a ha => ha) db.customers c hfc
  have hupdc : updateCustomer db j { email := some m2 }
      = (.ok (applyCustomerUpdates c { email := some m2 }),
         { db with customers := (db.customers.map (fun x =>
             if x.id == j then applyCustomerUpdates x { email := some m2 } else x)) }) := by
    simp only [updateCustomer]
    split
    · next h => simp [CustomerUpdates.isEmpty] at h
    split
    · next h => rw [hcc] at h; cases h
    split
    · next h => rw [hfc] at h; cases h
    · next h =>
      split
      · next row hrow =>
        rw [hfind2c] at hrow
        injection hrow with hrow
        rw [hrow]
      · next hrow => rw [hfind2c] at hrow; cases hrow
  have hmapeq : (db.employees.map fun e =>
        if e.id == i then applyEmployeeUpdates e { email := some m } else e)
      = db.employees.map
          (fun e => if e.id == i then { e with email := m } else e) := by
    apply List.map_congr_left
    intro a _
    by_cases h : (a.id == i) = true <;> simp [h, applyEmployeeUpdates]
  have hmapeqc : (db.customers.map fun x =>
        if x.id == j then applyCustomerUpdates x { email := some m2 } else x)
      = db.customers.map
          (fun x => if x.id == j then { x with email := m2 } else x) := by
    apply List.map_congr_left
    intro a _
    by_cases h : (a.id == j) = true <;> simp [h, applyCustomerUpdates]
  refine ⟨?_, ?_, ?_, ?_⟩
  · simp [employeesPUT, hadm, truthy, hi, EmployeePutBody.updates,
      EmployeeUpdates.isEmpty]
  · simp [employeesPUT, hadm, truthy, hi, EmployeePutBody.updates,
      EmployeeUpdates.isEmpty, hupd, hmapeq, applyEmployeeUpdates]
  · simp [customersPUT, hadm, truthy, hj, CustomerPutBody.updates,
      CustomerUpdates.isEmpty]
  · simp [customersPUT, hadm, truthy, hj, CustomerPutBody.updates,
      CustomerUpdates.isEmpty, hupdc, hmapeqc, applyCustomerUpdates]

/-- Claim C8 witness: the empty staff update on the sample state is
rejected with the 400 response and the store unchanged. -/
theorem update_empty_rejected_and_email_only_frame_witness :
    employeesPUT (some adminUser) { id := some 2 } sampleDB
      = (.badRequest "No fields to update", sampleDB) :=
  (update_empty_rejected_and_email_only_frame adminUser sampleDB 2 1 stdStaff
    ownedCust "x@y.com" "x2@y.com" (by decide) (by decide) (by decide)
    (by decide) (by decide) (by decide) (by decide)).1
